import Mathlib

/-!
Verification of the anti_stock web client reconciliation core.

This file gives a shallow embedding of the client-side backtest/chart code of
the repository (web/static/app.js, web/static/chart.js and the modular
revision of the backtest panel) and proves or refutes the frozen claims
about it.  JS numbers arriving in the payloads are modelled as integers
(on which Math.round is the identity, kept explicit as jsRound); DOM cells
are modelled as the strings written into them, and style classes as the
class strings / boolean classList flags the code assigns.
-/

namespace AntiStock

/-- JS truthiness of a possibly-absent number: undefined, null and 0 are falsy. -/
def jsTruthyNum : Option Int → Bool
  | none => false
  | some n => n != 0

/-- JS truthiness of a possibly-absent string: undefined, null and the empty string are falsy. -/
def jsTruthyStr : Option String → Bool
  | none => false
  | some s => s != ""

/-- Math.round on an integer-valued JS number is the identity; the call sites
are kept explicit with this function. -/
def jsRound (n : Int) : Int := n

/-- JS whitespace as stripped by String.prototype.trim. -/
def isWsChar (c : Char) : Bool :=
  c = ' ' || c = '\t' || c = '\n' || c = '\r'

/-- Model of JS String.prototype.trim. -/
def jsTrim (s : String) : String :=
  String.mk (((s.data.dropWhile isWsChar).reverse.dropWhile isWsChar).reverse)

/-- Model of JS s.split(" ")[0]: the prefix of the string before the first
space (the whole string when it contains none). -/
def jsFirstToken (s : String) : String :=
  String.mk (s.data.takeWhile (fun c => c ≠ ' '))

/-- Helper for formatComma: walks the reversed digit list and inserts a comma
after every group of three digits. -/
def groupRev : List Char → Nat → List Char
  | [], _ => []
  | c :: cs, i =>
    if i ≠ 0 ∧ i % 3 = 0 then ',' :: c :: groupRev cs (i + 1)
    else c :: groupRev cs (i + 1)

/-- Model of the formatComma display helper (toLocaleString-style thousands
grouping) used by the table and metrics rendering code. -/
def formatComma (n : Int) : String :=
  let grouped := String.mk ((groupRev (toString n.natAbs).data.reverse 0).reverse)
  if n < 0 then "-" ++ grouped else grouped

/-- Model of JS Number.toFixed(2) on an integer-valued number. -/
def toFixed2 (n : Int) : String := toString n ++ ".00"

/-- Model of JS Number.toFixed(1) on an integer-valued number. -/
def toFixed1 (n : Int) : String := toString n ++ ".0"

/-- Model of the formatCurrency helper (Intl.NumberFormat KRW formatting:
currency sign followed by the grouped amount, no decimals for KRW). -/
def formatCurrency (n : Int) : String := "₩" ++ formatComma n

/-- Stable ordered insert used to model Array.prototype.sort with an
ascending numeric-key comparator. -/
def insertSorted {α : Type} (key : α → Int) (m : α) : List α → List α
  | [] => [m]
  | x :: xs => if key x ≤ key m then x :: insertSorted key m xs else m :: x :: xs

/-- Model of Array.prototype.sort with comparator (a, b) => key a - key b. -/
def sortByKeyFn {α : Type} (key : α → Int) (l : List α) : List α :=
  l.foldr (insertSorted key) []

/-- Boolean check that a list is ascending with respect to a numeric key. -/
def isSortedBy {α : Type} (key : α → Int) : List α → Bool
  | [] => true
  | [_] => true
  | a :: b :: t => decide (key a ≤ key b) && isSortedBy key (b :: t)

theorem isSortedBy_insertSorted {α : Type} (key : α → Int) (m : α) :
    ∀ l : List α, isSortedBy key l = true → isSortedBy key (insertSorted key m l) = true := by
  intro l
  induction l with
  | nil => intro _; simp [insertSorted, isSortedBy]
  | cons x xs ih =>
    intro h
    by_cases hxm : key x ≤ key m
    · simp only [insertSorted, if_pos hxm]
      cases xs with
      | nil => simp [insertSorted, isSortedBy, hxm]
      | cons y ys =>
        have hxy : key x ≤ key y := by
          simp [isSortedBy] at h; exact h.1
        have hyys : isSortedBy key (y :: ys) = true := by
          simp [isSortedBy] at h ⊢
          exact h.2
        have hins := ih hyys
        by_cases hym : key y ≤ key m
        · simp only [insertSorted, if_pos hym] at hins ⊢
          simp [isSortedBy, hxy, hins]
        · simp only [insertSorted, if_neg hym] at hins ⊢
          have hmy : key m ≤ key y := by omega
          simp [isSortedBy] at hyys ⊢
          exact ⟨hxm, hmy, hyys⟩
    · simp only [insertSorted, if_neg hxm]
      have hmx : key m ≤ key x := by omega
      simp [isSortedBy] at h ⊢
      exact ⟨hmx, h⟩

theorem isSortedBy_sortByKeyFn {α : Type} (key : α → Int) :
    ∀ l : List α, isSortedBy key (sortByKeyFn key l) = true := by
  intro l
  induction l with
  | nil => rfl
  | cons x xs ih =>
    have : sortByKeyFn key (x :: xs) = insertSorted key x (sortByKeyFn key xs) := rfl
    rw [this]
    exact isSortedBy_insertSorted key x _ ih

/-- Replace the first element whose key equals k; models
document.querySelector on the unique data-date attribute followed by the
cell mutations performed on that row. -/
def updateFirstBy {ρ : Type} (keyOf : ρ → String) (k : String) (f : ρ → ρ) : List ρ → List ρ
  | [] => []
  | r :: rest => if keyOf r = k then f r :: rest else r :: updateFirstBy keyOf k f rest

/-- Whether some row carries the key (querySelector finds a match). -/
def hasKey {ρ : Type} (keyOf : ρ → String) (k : String) (rows : List ρ) : Bool :=
  rows.any (fun r => keyOf r == k)

/-- Replace the first element satisfying a predicate; models
Array.prototype.find followed by a mutation of the found object. -/
def updateFirstWhere {α : Type} (p : α → Bool) (f : α → α) : List α → List α
  | [] => []
  | x :: xs => if p x then f x :: xs else x :: updateFirstWhere p f xs

theorem updateFirstBy_map {ρ σ : Type} (keyOf : ρ → String) (k : String) (f : ρ → ρ)
    (g : ρ → σ) (hg : ∀ r, g (f r) = g r) :
    ∀ rows : List ρ, (updateFirstBy keyOf k f rows).map g = rows.map g := by
  intro rows
  induction rows with
  | nil => rfl
  | cons r rest ih =>
    by_cases h : keyOf r = k
    · simp [updateFirstBy, h, hg]
    · simp [updateFirstBy, h, ih]

theorem hasKey_updateFirstBy {ρ : Type} (keyOf : ρ → String) (k k₂ : String) (f : ρ → ρ)
    (hf : ∀ r, keyOf (f r) = keyOf r) :
    ∀ rows : List ρ, hasKey keyOf k₂ (updateFirstBy keyOf k f rows) = hasKey keyOf k₂ rows := by
  intro rows
  induction rows with
  | nil => rfl
  | cons r rest ih =>
    by_cases h : keyOf r = k
    · simp [updateFirstBy, h, hasKey, hf]
    · simp only [updateFirstBy, if_neg h]
      simp [hasKey] at ih ⊢
      rw [ih]

theorem updateFirstBy_idem {ρ : Type} (keyOf : ρ → String) (k : String) (f : ρ → ρ)
    (hf : ∀ r, keyOf (f r) = keyOf r) (hidem : ∀ r, f (f r) = f r) :
    ∀ rows : List ρ,
      updateFirstBy keyOf k f (updateFirstBy keyOf k f rows) = updateFirstBy keyOf k f rows := by
  intro rows
  induction rows with
  | nil => rfl
  | cons r rest ih =>
    by_cases h : keyOf r = k
    · simp [updateFirstBy, h, hf, hidem]
    · simp [updateFirstBy, h, ih]

/-!
Bar table model for the modular backtest panel (the revision of
renderDataTable / updateTableRow with decision-metric columns; cited as
src/unnamed/part_001).  A table row is the collection of cell strings,
style class strings and classList flags the code writes.
-/

/-- One record of the tabular preload response (POST /backtest/data). -/
structure BarData where
  date : String
  time : Option String
  close : Int
  ma5 : Option Int
  ma20 : Option Int
  volume : Int
  vol_ma20 : Option Int
deriving DecidableEq

/-- One payload of a trade_event message or one entry of
result.detailed_logs / result.history.  All fields except the timestamp may
be absent (undefined); absent and null are identified. -/
structure Trade where
  timestamp : String
  side : Option String
  qty : Option Int
  price : Option Int
  pnl_pct : Option Int
  ma_short : Option Int
  ma_long : Option Int
  volume : Option Int
  avg_vol : Option Int
  adx : Option Int
  slope : Option Int
  rr_ratio : Option Int
  perf_weight : Option Int
  action : Option String
  msg : Option String
deriving DecidableEq

/-- The empty trade event; concrete events are built by overriding fields. -/
def Trade.blank (ts : String) : Trade :=
  { timestamp := ts, side := none, qty := none, price := none, pnl_pct := none
    ma_short := none, ma_long := none, volume := none, avg_vol := none
    adx := none, slope := none, rr_ratio := none, perf_weight := none
    action := none, msg := none }

namespace BT

/-- Observable state of one table row of the modular backtest panel. -/
structure Row where
  key : String
  dateCell : String
  closeCell : String
  maShortCell : String
  maLongCell : String
  volCell : String
  avgVolCell : String
  adxCell : String
  slopeCell : String
  rrCellHtml : String
  weightCell : String
  actionCell : String
  actionColor : String
  logCell : String
  logTitle : String
  sideCellText : String
  sideCellClass : String
  qtyCell : String
  priceCell : String
  pnlCellHtml : String
  rowBuy : Bool
  rowSell : Bool
deriving DecidableEq

/-- renderDataTable, per row: the data-date key combines date and time for
intraday rows (truthy time field) and is the date alone for daily rows;
market cells are formatted from the preloaded record, decision and trade
cells start as placeholders. -/
def mkRow (b : BarData) : Row :=
  let uniqueKey := if AntiStock.jsTruthyStr b.time then b.date ++ " " ++ b.time.getD "" else b.date
  { key := uniqueKey
    dateCell := uniqueKey
    closeCell := AntiStock.formatComma b.close
    maShortCell := if AntiStock.jsTruthyNum b.ma5 then AntiStock.formatComma (AntiStock.jsRound (b.ma5.getD 0)) else "-"
    maLongCell := if AntiStock.jsTruthyNum b.ma20 then AntiStock.formatComma (AntiStock.jsRound (b.ma20.getD 0)) else "-"
    volCell := AntiStock.formatComma b.volume
    avgVolCell := if AntiStock.jsTruthyNum b.vol_ma20 then AntiStock.formatComma (AntiStock.jsRound (b.vol_ma20.getD 0)) else "-"
    adxCell := "-"
    slopeCell := "-"
    rrCellHtml := "-"
    weightCell := "-"
    actionCell := "-"
    actionColor := ""
    logCell := ""
    logTitle := ""
    sideCellText := ""
    sideCellClass := "border-left text-center side-cell"
    qtyCell := ""
    priceCell := ""
    pnlCellHtml := ""
    rowBuy := false
    rowSell := false }

/-- The table: the list of rows plus the row last scrolled into view. -/
structure Table where
  rows : List Row
  lastTouched : Option String
deriving DecidableEq

/-- renderDataTable: replaces the table body with one row per preloaded record. -/
def renderDataTable (data : List BarData) : Table :=
  { rows := data.map mkRow, lastTouched := none }

/-- The spec name for the baseline-building operation realized by renderDataTable. -/
def loadBaseline : List BarData → Table := renderDataTable

/-- Merge guarded by presence: the cell is rewritten exactly when the event
field is neither undefined nor null. -/
def mergeNumCell (v : Option Int) (f : Int → String) (old : String) : String :=
  match v with
  | some n => f n
  | none => old

/-- Merge guarded by JS truthiness of a number (skips absent, null and 0). -/
def mergeTruthyNumCell (v : Option Int) (f : Int → String) (old : String) : String :=
  if AntiStock.jsTruthyNum v then f (v.getD 0) else old

/-- Merge guarded by JS truthiness of a string (skips absent, null and the
empty string). -/
def mergeTruthyStrCell (v : Option String) (f : String → String) (old : String) : String :=
  if AntiStock.jsTruthyStr v then f (v.getD "") else old

/-- Final text of the side cell: the first ternary on side 1/2 is dead
(immediately overwritten); the second maps BUY, SELL and SKIP to Korean
labels; any other string is written as is; assigning an undefined side sets
the literal text undefined (DOM textContent semantics). -/
def sideTextOf : Option String → String
  | some "BUY" => "매수"
  | some "SELL" => "매도"
  | some "SKIP" => "보류"
  | some s => s
  | none => "undefined"

/-- Class string written onto the side cell. -/
def sideClassOf (side : Option String) : String :=
  "border-left text-center side-cell " ++
    (if side = some "BUY" then "trade-buy"
     else if side = some "SELL" then "trade-sell" else "trade-skip")

/-- HTML written into the pnl cell: a span whose class is chosen by the sign
of the rounded value. -/
def pnlSpan (v : Int) : String :=
  "<span class=\"" ++ (if v ≥ 0 then "pnl-positive" else "pnl-negative") ++ "\">" ++
    AntiStock.toFixed2 v ++ "%</span>"

/-- HTML written into the reward/risk cell: highlighted when the ratio is at
least 2. -/
def rrSpan (v : Int) : String :=
  "<span class=\"" ++ (if v ≥ 2 then "pnl-positive" else "") ++ "\">" ++
    AntiStock.toFixed2 v ++ "</span>"

/-- Inline color written for an action value; unrecognized actions leave the
previous color in place. -/
def actionColorOf (a : String) (old : String) : String :=
  if a = "BUY" then "#ef4444"
  else if a = "SELL" then "#3b82f6"
  else if a = "HOLD" ∨ a = "FAIL" then "#f59e0b"
  else old

/-- Color update guarded by truthiness of the action field. -/
def mergeActionColor (act : Option String) (old : String) : String :=
  if AntiStock.jsTruthyStr act then actionColorOf (act.getD "") old else old

/-- classList.add of row-buy: runs only for BUY events. -/
def rowBuyUpd (side : Option String) (old : Bool) : Bool :=
  if side = some "BUY" then true else old

/-- classList.add of row-sell: runs only for SELL events (the BUY branch is
taken first). -/
def rowSellUpd (side : Option String) (old : Bool) : Bool :=
  if side = some "BUY" then old else if side = some "SELL" then true else old

/-- Cell mutations of updateTableRow on the matched row of the modular
backtest panel. -/
def applyToRow (t : Trade) (r : Row) : Row :=
  { r with
    sideCellText := sideTextOf t.side
    sideCellClass := sideClassOf t.side
    qtyCell := mergeNumCell t.qty AntiStock.formatComma r.qtyCell
    priceCell := mergeNumCell t.price (fun p => AntiStock.formatComma (AntiStock.jsRound p)) r.priceCell
    pnlCellHtml := mergeNumCell t.pnl_pct pnlSpan r.pnlCellHtml
    maShortCell := mergeTruthyNumCell t.ma_short (fun v => AntiStock.formatComma (AntiStock.jsRound v)) r.maShortCell
    maLongCell := mergeTruthyNumCell t.ma_long (fun v => AntiStock.formatComma (AntiStock.jsRound v)) r.maLongCell
    volCell := mergeTruthyNumCell t.volume AntiStock.formatComma r.volCell
    avgVolCell := mergeTruthyNumCell t.avg_vol (fun v => AntiStock.formatComma (AntiStock.jsRound v)) r.avgVolCell
    adxCell := mergeTruthyNumCell t.adx (fun v => toString (AntiStock.jsRound v)) r.adxCell
    slopeCell := mergeTruthyNumCell t.slope AntiStock.toFixed1 r.slopeCell
    rrCellHtml := mergeTruthyNumCell t.rr_ratio rrSpan r.rrCellHtml
    weightCell := mergeTruthyNumCell t.perf_weight AntiStock.toFixed2 r.weightCell
    actionCell := mergeTruthyStrCell t.action id r.actionCell
    actionColor := mergeActionColor t.action r.actionColor
    logCell := mergeTruthyStrCell t.msg id r.logCell
    logTitle := mergeTruthyStrCell t.msg id r.logTitle
    rowBuy := rowBuyUpd t.side r.rowBuy
    rowSell := rowSellUpd t.side r.rowSell }

/-- updateTableRow of the modular backtest panel: the row key is the trimmed
event timestamp; an event with no matching row mutates nothing; a matching
row receives the cell merges and is scrolled into view. -/
def updateTableRow (tbl : Table) (t : Trade) : Table :=
  let dateKey := AntiStock.jsTrim t.timestamp
  if AntiStock.hasKey Row.key dateKey tbl.rows then
    { rows := AntiStock.updateFirstBy Row.key dateKey (applyToRow t) tbl.rows
      lastTouched := some dateKey }
  else tbl

theorem mergeNumCell_idem (v : Option Int) (f : Int → String) (s : String) :
    mergeNumCell v f (mergeNumCell v f s) = mergeNumCell v f s := by
  cases v <;> simp [mergeNumCell]

theorem mergeTruthyNumCell_idem (v : Option Int) (f : Int → String) (s : String) :
    mergeTruthyNumCell v f (mergeTruthyNumCell v f s) = mergeTruthyNumCell v f s := by
  by_cases h : AntiStock.jsTruthyNum v <;> simp [mergeTruthyNumCell, h]

theorem mergeTruthyStrCell_idem (v : Option String) (f : String → String) (s : String) :
    mergeTruthyStrCell v f (mergeTruthyStrCell v f s) = mergeTruthyStrCell v f s := by
  by_cases h : AntiStock.jsTruthyStr v <;> simp [mergeTruthyStrCell, h]

theorem mergeTruthyNumCell_of_false (v : Option Int) (f : Int → String) (s : String)
    (h : AntiStock.jsTruthyNum v = false) : mergeTruthyNumCell v f s = s := by
  simp [mergeTruthyNumCell, h]

theorem mergeTruthyNumCell_of_some (n : Int) (f : Int → String) (s : String)
    (h : n ≠ 0) : mergeTruthyNumCell (some n) f s = f n := by
  simp [mergeTruthyNumCell, AntiStock.jsTruthyNum, h]

theorem mergeTruthyStrCell_of_false (v : Option String) (f : String → String) (s : String)
    (h : AntiStock.jsTruthyStr v = false) : mergeTruthyStrCell v f s = s := by
  simp [mergeTruthyStrCell, h]

theorem mergeTruthyStrCell_of_some (a : String) (f : String → String) (s : String)
    (h : a ≠ "") : mergeTruthyStrCell (some a) f s = f a := by
  simp [mergeTruthyStrCell, AntiStock.jsTruthyStr, h]

theorem actionColorOf_idem (a : String) (old : String) :
    actionColorOf a (actionColorOf a old) = actionColorOf a old := by
  by_cases h1 : a = "BUY" <;> by_cases h2 : a = "SELL" <;>
    by_cases h3 : a = "HOLD" ∨ a = "FAIL" <;>
    simp [actionColorOf, h1, h2, h3]

theorem mergeActionColor_idem (act : Option String) (old : String) :
    mergeActionColor act (mergeActionColor act old) = mergeActionColor act old := by
  by_cases h : AntiStock.jsTruthyStr act <;>
    simp [mergeActionColor, h, actionColorOf_idem]

theorem rowBuyUpd_idem (side : Option String) (old : Bool) :
    rowBuyUpd side (rowBuyUpd side old) = rowBuyUpd side old := by
  by_cases h : side = some "BUY" <;> simp [rowBuyUpd, h]

theorem rowSellUpd_idem (side : Option String) (old : Bool) :
    rowSellUpd side (rowSellUpd side old) = rowSellUpd side old := by
  by_cases h1 : side = some "BUY" <;> by_cases h2 : side = some "SELL" <;>
    simp [rowSellUpd, h1, h2]

theorem applyToRow_key (t : Trade) (r : Row) : (applyToRow t r).key = r.key := rfl

theorem applyToRow_idem (t : Trade) (r : Row) :
    applyToRow t (applyToRow t r) = applyToRow t r := by
  cases r
  simp [applyToRow, mergeNumCell_idem, mergeTruthyNumCell_idem, mergeTruthyStrCell_idem,
    mergeActionColor_idem, rowBuyUpd_idem, rowSellUpd_idem]

theorem updateTableRow_idem (tbl : Table) (t : Trade) :
    updateTableRow (updateTableRow tbl t) t = updateTableRow tbl t := by
  by_cases h : AntiStock.hasKey Row.key (AntiStock.jsTrim t.timestamp) tbl.rows
  · simp only [updateTableRow, h, if_pos]
    have h2 : AntiStock.hasKey Row.key (AntiStock.jsTrim t.timestamp)
        (AntiStock.updateFirstBy Row.key (AntiStock.jsTrim t.timestamp) (applyToRow t) tbl.rows) = true := by
      rw [AntiStock.hasKey_updateFirstBy Row.key (AntiStock.jsTrim t.timestamp) (AntiStock.jsTrim t.timestamp)
        (applyToRow t) (fun r => applyToRow_key t r) tbl.rows]
      exact h
    simp only [h2, if_pos]
    rw [AntiStock.updateFirstBy_idem Row.key (AntiStock.jsTrim t.timestamp) (applyToRow t)
      (fun r => applyToRow_key t r) (fun r => applyToRow_idem t r) tbl.rows]
  · simp only [updateTableRow, h, if_neg, Bool.false_eq_true, if_false]

end BT

/-!
Bar table model for the monolithic dashboard script (web/static/app.js):
renderDataTable keys rows by the date alone and updateTableRow matches the
first space-separated token of the event timestamp.
-/

namespace Legacy

/-- Observable state of one row of the monolithic backtest table. -/
structure Row where
  key : String
  dateCell : String
  closeCell : String
  ma5Cell : String
  ma20Cell : String
  volCell : String
  typeCellText : String
  typeCellClass : String
  qtyCell : String
  priceCell : String
  rowBuy : Bool
  rowSell : Bool
deriving DecidableEq

/-- renderDataTable of app.js, per row: data-date is the date alone; the
displayed date cell appends the time when present. -/
def mkRow (b : BarData) : Row :=
  { key := b.date
    dateCell := b.date ++ (if AntiStock.jsTruthyStr b.time then " " ++ b.time.getD "" else "")
    closeCell := AntiStock.formatComma b.close
    ma5Cell := if AntiStock.jsTruthyNum b.ma5 then AntiStock.formatComma (AntiStock.jsRound (b.ma5.getD 0)) else "-"
    ma20Cell := if AntiStock.jsTruthyNum b.ma20 then AntiStock.formatComma (AntiStock.jsRound (b.ma20.getD 0)) else "-"
    volCell := AntiStock.formatComma b.volume
    typeCellText := ""
    typeCellClass := "border-left type-cell"
    qtyCell := ""
    priceCell := ""
    rowBuy := false
    rowSell := false }

/-- The monolithic table plus the row last scrolled into view. -/
structure Table where
  rows : List Row
  lastTouched : Option String
deriving DecidableEq

/-- renderDataTable of app.js. -/
def renderDataTable (data : List BarData) : Table :=
  { rows := data.map mkRow, lastTouched := none }

/-- Cell mutations of the app.js updateTableRow on the matched row: the type,
qty and price cells are written unconditionally from the event (an absent
number renders as the undefined text, an absent price rounds to NaN), and a
non-BUY side always adds the row-sell class. -/
def applyToRow (t : Trade) (r : Row) : Row :=
  { r with
    typeCellText := match t.side with
      | some s => s
      | none => "undefined"
    typeCellClass := "border-left type-cell " ++
      (if t.side = some "BUY" then "trade-buy" else "trade-sell")
    qtyCell := match t.qty with
      | some q => toString q
      | none => "undefined"
    priceCell := match t.price with
      | some p => AntiStock.formatComma (AntiStock.jsRound p)
      | none => "NaN"
    rowBuy := BT.rowBuyUpd t.side r.rowBuy
    rowSell := if t.side = some "BUY" then r.rowSell else true }

/-- updateTableRow of app.js: the lookup key is the date part of the event
timestamp (text before the first space); no matching row means no mutation. -/
def updateTableRow (tbl : Table) (t : Trade) : Table :=
  let dateKey := AntiStock.jsFirstToken t.timestamp
  if AntiStock.hasKey Row.key dateKey tbl.rows then
    { rows := AntiStock.updateFirstBy Row.key dateKey (applyToRow t) tbl.rows
      lastTouched := some dateKey }
  else tbl

theorem applyToRowLegacy_key (t : Trade) (r : Row) : (applyToRow t r).key = r.key := rfl

theorem applyToRowLegacy_idem (t : Trade) (r : Row) :
    applyToRow t (applyToRow t r) = applyToRow t r := by
  cases r
  by_cases h : t.side = some "BUY" <;>
    simp [applyToRow, BT.rowBuyUpd_idem, h]

theorem updateTableRowLegacy_idem (tbl : Table) (t : Trade) :
    updateTableRow (updateTableRow tbl t) t = updateTableRow tbl t := by
  by_cases h : AntiStock.hasKey Row.key (AntiStock.jsFirstToken t.timestamp) tbl.rows
  · simp only [updateTableRow, h, if_pos]
    have h2 : AntiStock.hasKey Row.key (AntiStock.jsFirstToken t.timestamp)
        (AntiStock.updateFirstBy Row.key (AntiStock.jsFirstToken t.timestamp)
          (applyToRow t) tbl.rows) = true := by
      rw [AntiStock.hasKey_updateFirstBy Row.key _ _ (applyToRow t)
        (fun r => applyToRowLegacy_key t r) tbl.rows]
      exact h
    simp only [h2, if_pos]
    rw [AntiStock.updateFirstBy_idem Row.key _ (applyToRow t)
      (fun r => applyToRowLegacy_key t r) (fun r => applyToRowLegacy_idem t r) tbl.rows]
  · simp only [updateTableRow, h, if_neg, Bool.false_eq_true, if_false]

end Legacy

/-!
Stream session models.  The /ws/backtest message stream is a tagged union of
progress, trade_event, result and error messages; the view state is whatever
the handlers write into the DOM.  Two revisions of the onmessage handler are
modelled: the monolithic app.js handler (progress carries a bare percent
number and the result renders its metrics), and the modular revision
(progress carries a metrics dict driving the realtime panel, and the result
leaves that panel untouched).
-/

/-- Payload of a progress message in the modular revision. -/
structure ProgressPayload where
  percent : Int
  qty : Int
  avg_price : Int
  buy_amt : Int
  eval_amt : Int
  eval_pnl : Int
  return_rate : Int
  trade_count : Int
deriving DecidableEq

/-- Metrics object of the terminal result message. -/
structure Metrics where
  total_return : Int
  total_asset : Int
  mdd : Int
  trade_count : Int
deriving DecidableEq

/-- Terminal result payload. -/
structure BtResult where
  metrics : Metrics
  detailed_logs : Option (List Trade)
  history : Option (List Trade)
deriving DecidableEq

namespace BT

/-- Inbound stream message of the modular revision. -/
inductive Msg where
  | progress (p : ProgressPayload)
  | tradeEvent (t : Trade)
  | result (r : BtResult)
  | errorMsg (s : String)

/-- Displayed view state of the modular backtest panel. -/
structure View where
  progressWidth : String
  progressText : String
  qtyText : String
  avgText : String
  buyAmtText : String
  evalAmtText : String
  evalPnlText : String
  pnlClass : String
  rateText : String
  rateClass : String
  tradeCountText : String
  statusText : String
  btnDisabled : Bool
  closed : Bool
  lastBacktestResult : Option BtResult
  table : Table
deriving DecidableEq

/-- updateRealtimeMetrics: every realtime metric element is rewritten from
the supplied payload; the displayed values carry comma grouping, the pnl and
rate elements also a sign class. -/
def updateRealtimeMetrics (v : View) (d : ProgressPayload) : View :=
  { v with
    qtyText := AntiStock.formatComma d.qty
    avgText := AntiStock.formatComma (AntiStock.jsRound d.avg_price)
    buyAmtText := AntiStock.formatComma (AntiStock.jsRound d.buy_amt)
    evalAmtText := AntiStock.formatComma (AntiStock.jsRound d.eval_amt)
    evalPnlText := AntiStock.formatComma (AntiStock.jsRound d.eval_pnl)
    pnlClass := "value " ++
      (if d.eval_pnl > 0 then "pnl-positive" else if d.eval_pnl < 0 then "pnl-negative" else "")
    rateText := AntiStock.toFixed2 d.return_rate ++ "%"
    rateClass := "value " ++ (if d.return_rate ≥ 0 then "pnl-positive" else "pnl-negative")
    tradeCountText := toString d.trade_count }

/-- ws.onmessage of the modular revision.  The result branch finalizes the
progress bar, stores the payload for export and replays detailed_logs (or
history as a fallback) into the table; it does not touch the realtime
metrics panel (the renderMetrics call is commented out in the source). -/
def handleMessage (v : View) (m : Msg) : View :=
  match m with
  | .progress p =>
    updateRealtimeMetrics
      { v with progressWidth := toString p.percent ++ "%"
               progressText := toString p.percent ++ "%" } p
  | .tradeEvent t => { v with table := updateTableRow v.table t }
  | .result r =>
    let tbl :=
      match r.detailed_logs with
      | some l => l.foldl updateTableRow v.table
      | none =>
        match r.history with
        | some h => h.foldl updateTableRow v.table
        | none => v.table
    { v with progressWidth := "100%", progressText := "100%"
             lastBacktestResult := some r, table := tbl
             statusText := "완료", btnDisabled := false, closed := true }
  | .errorMsg _ => { v with statusText := "오류 발생", btnDisabled := false, closed := true }

/-- Dispatch of a whole message sequence (handlers run in arrival order). -/
def processSession (v : View) (ms : List Msg) : View :=
  ms.foldl handleMessage v

/-- The summary metrics panel of the modular revision, as displayed. -/
structure PanelView where
  qtyText : String
  avgText : String
  buyAmtText : String
  evalAmtText : String
  evalPnlText : String
  pnlClass : String
  rateText : String
  rateClass : String
  tradeCountText : String
deriving DecidableEq

/-- Projection of the displayed summary panel out of the view. -/
def panelOf (v : View) : PanelView :=
  { qtyText := v.qtyText, avgText := v.avgText, buyAmtText := v.buyAmtText
    evalAmtText := v.evalAmtText, evalPnlText := v.evalPnlText, pnlClass := v.pnlClass
    rateText := v.rateText, rateClass := v.rateClass, tradeCountText := v.tradeCountText }

/-- The panel a progress payload renders to. -/
def renderPanel (d : ProgressPayload) : PanelView :=
  { qtyText := AntiStock.formatComma d.qty
    avgText := AntiStock.formatComma (AntiStock.jsRound d.avg_price)
    buyAmtText := AntiStock.formatComma (AntiStock.jsRound d.buy_amt)
    evalAmtText := AntiStock.formatComma (AntiStock.jsRound d.eval_amt)
    evalPnlText := AntiStock.formatComma (AntiStock.jsRound d.eval_pnl)
    pnlClass := "value " ++
      (if d.eval_pnl > 0 then "pnl-positive" else if d.eval_pnl < 0 then "pnl-negative" else "")
    rateText := AntiStock.toFixed2 d.return_rate ++ "%"
    rateClass := "value " ++ (if d.return_rate ≥ 0 then "pnl-positive" else "pnl-negative")
    tradeCountText := toString d.trade_count }

theorem panelOf_progress (v : View) (p : ProgressPayload) :
    panelOf (handleMessage v (Msg.progress p)) = renderPanel p := rfl

theorem panelOf_result (v : View) (r : BtResult) :
    panelOf (handleMessage v (Msg.result r)) = panelOf v := rfl

end BT

namespace Legacy

/-- Inbound stream message of the monolithic app.js handler: progress data is
a bare percent number. -/
inductive Msg where
  | progress (pct : Int)
  | tradeEvent (t : Trade)
  | result (r : BtResult)
  | errorMsg (s : String)

/-- Displayed view state of the monolithic backtest panel. -/
structure View where
  progressWidth : String
  progressText : String
  totalReturnText : String
  returnClass : String
  finalAssetText : String
  mddText : String
  tradeCountText : String
  statusText : String
  btnDisabled : Bool
  closed : Bool
  table : Table
deriving DecidableEq

/-- renderMetrics of app.js: writes the terminal metrics into the summary
elements. -/
def renderMetrics (v : View) (m : Metrics) : View :=
  { v with
    totalReturnText := toString m.total_return ++ "%"
    returnClass := "value " ++ (if m.total_return ≥ 0 then "pnl-positive" else "pnl-negative")
    finalAssetText := AntiStock.formatCurrency m.total_asset
    mddText := toString m.mdd ++ "%"
    tradeCountText := toString m.trade_count }

/-- ws.onmessage of app.js: progress only moves the progress bar; the result
finalizes the bar and renders its metrics. -/
def handleMessage (v : View) (m : Msg) : View :=
  match m with
  | .progress pct =>
    { v with progressWidth := toString pct ++ "%", progressText := toString pct ++ "%" }
  | .tradeEvent t => { v with table := updateTableRow v.table t }
  | .result r =>
    renderMetrics
      { v with progressWidth := "100%", progressText := "100%"
               statusText := "완료", btnDisabled := false, closed := true } r.metrics
  | .errorMsg _ => { v with statusText := "오류 발생", btnDisabled := false, closed := true }

/-- Dispatch of a whole message sequence. -/
def processSession (v : View) (ms : List Msg) : View :=
  ms.foldl handleMessage v

/-- The summary metrics panel of app.js, as displayed. -/
structure MetricsPanel where
  totalReturnText : String
  returnClass : String
  finalAssetText : String
  mddText : String
  tradeCountText : String
deriving DecidableEq

/-- Projection of the displayed summary metrics out of the view. -/
def metricsOf (v : View) : MetricsPanel :=
  { totalReturnText := v.totalReturnText, returnClass := v.returnClass
    finalAssetText := v.finalAssetText, mddText := v.mddText
    tradeCountText := v.tradeCountText }

/-- The panel a terminal metrics object renders to. -/
def renderMetricsPanel (m : Metrics) : MetricsPanel :=
  { totalReturnText := toString m.total_return ++ "%"
    returnClass := "value " ++ (if m.total_return ≥ 0 then "pnl-positive" else "pnl-negative")
    finalAssetText := AntiStock.formatCurrency m.total_asset
    mddText := toString m.mdd ++ "%"
    tradeCountText := toString m.trade_count }

theorem metricsOf_result (v : View) (r : BtResult) :
    metricsOf (handleMessage v (Msg.result r)) = renderMetricsPanel r.metrics := rfl

end Legacy

/-!
Chart page model (web/static/chart.js): the loadChartData fetch path, the
external bulk-replace entry window.chartApi.setMarkers, and the per-row time
edit handler of the trade table.
-/

/-- A parsed JS Date: the local calendar components read by getFullYear,
getMonth and getDate, plus the epoch instant getTime()/1000. -/
structure JsDate where
  y : Int
  mo : Int
  d : Int
  epochSec : Int
deriving DecidableEq

/-- A lightweight-charts time value: either epoch seconds (intraday) or a
date-only YYYY-MM-DD string, represented by its calendar components. -/
inductive TimeVal where
  | instant (sec : Int)
  | dateStr (y mo d : Int)
deriving DecidableEq

/-- Days since the Unix epoch of a calendar date (civil-from-days inverse,
standard era decomposition); models Date.UTC parsing of a YYYY-MM-DD string. -/
def daysFromCivil (y m d : Int) : Int :=
  let yAdj := if m ≤ 2 then y - 1 else y
  let era := (if yAdj ≥ 0 then yAdj else yAdj - 399) / 400
  let yoe := yAdj - era * 400
  let mp := if m > 2 then m - 3 else m + 9
  let doy := (153 * mp + 2) / 5 + d - 1
  let doe := yoe * 365 + yoe / 4 - yoe / 100 + doy
  era * 146097 + doe - 719468

/-- Effective milliseconds of a time value, as computed by the comparator of
chartApi.setMarkers: a string becomes new Date(s).getTime(), a number is
multiplied by 1000. -/
def effMs : TimeVal → Int
  | .instant s => s * 1000
  | .dateStr y m d => 86400000 * daysFromCivil y m d

/-- Effective seconds of a time value, as computed by the comparator of the
time-edit handler: a string becomes new Date(s).getTime()/1000. -/
def effSec : TimeVal → Int
  | .instant s => s
  | .dateStr y m d => 86400 * daysFromCivil y m d

/-- One event of the markers array of the chart dataset (or of a backtest
history handed to chartApi.setMarkers). -/
structure MEvent where
  event_id : Option String
  ts : JsDate
  side : Option String
  qty : Int
  event_type : Option String
deriving DecidableEq

/-- One chart marker pushed to candleSeries.setMarkers. -/
structure Marker where
  time : TimeVal
  position : String
  color : String
  shape : String
  text : Option String
  id : String
deriving DecidableEq

/-- Normalization of a marker time from a parsed date: date-only components
for the daily timeframe, epoch seconds otherwise. -/
def markerTimeOfDate (tf : String) (dt : JsDate) : TimeVal :=
  if tf = "D" then TimeVal.dateStr dt.y dt.mo dt.d else TimeVal.instant dt.epochSec

/-- Normalization of a marker time from an event. -/
def markerTime (tf : String) (e : MEvent) : TimeVal :=
  markerTimeOfDate tf e.ts

/-- Marker construction shared by the two build sites: the side picks color,
shape, label and position; the default label differs between the sites. -/
def mkMarkerCore (defaultText : Option String) (tf : String) (e : MEvent) : Marker :=
  let cst :=
    if e.side = some "BUY" then ("#26a69a", "arrowUp", some ("Buy " ++ toString e.qty))
    else if e.side = some "SELL" then ("#ef5350", "arrowDown", some ("Sell " ++ toString e.qty))
    else ("#2196F3", "circle", defaultText)
  { time := markerTime tf e
    position := if e.side = some "BUY" then "belowBar" else "aboveBar"
    color := cst.1
    shape := cst.2.1
    text := cst.2.2
    id := e.event_id.getD "" }

/-- Marker construction of the loadChartData path: the default label is the
raw event_type (possibly undefined). -/
def mkMarkerLoad (tf : String) (e : MEvent) : Marker :=
  mkMarkerCore e.event_type tf e

/-- Marker construction of chartApi.setMarkers: the default label falls back
to Trade on a falsy event_type. -/
def mkMarkerApi (tf : String) (e : MEvent) : Marker :=
  mkMarkerCore
    (some (if jsTruthyStr e.event_type then e.event_type.getD "" else "Trade")) tf e

/-- Identity synthesized for an event lacking one: prefix, Date.now() and the
array index. -/
def genId (pre : String) (now : Int) (i : Nat) : String :=
  pre ++ toString now ++ "_" ++ toString i

/-- The write-back performed on one event: a falsy event_id (absent, null or
empty) is replaced on the event object itself. -/
def patchId (pre : String) (now : Int) (i : Nat) (e : MEvent) : MEvent :=
  if jsTruthyStr e.event_id then e else { e with event_id := some (genId pre now i) }

/-- The id write-back over the whole forEach loop, starting at index k. -/
def patchEvents (pre : String) (now : Int) : Nat → List MEvent → List MEvent
  | _, [] => []
  | i, e :: es => patchId pre now i e :: patchEvents pre now (i + 1) es

/-- Model of Array.prototype.findIndex returning an index option. -/
def findIndexJs {α : Type} (p : α → Bool) : List α → Option Nat
  | [] => none
  | x :: xs => if p x then some 0 else (findIndexJs p xs).map (· + 1)

/-- In-place update of the time field of the marker at an index. -/
def setTimeAt (nt : TimeVal) : Nat → List Marker → List Marker
  | _, [] => []
  | 0, m :: ms => { m with time := nt } :: ms
  | Nat.succ i, m :: ms => m :: setTimeAt nt i ms

/-- One candle of the chart dataset. -/
structure Candle where
  time : Int
  openPrice : Int
  closePrice : Int
  volume : Int
deriving DecidableEq

/-- One histogram point of the derived volume series. -/
structure VolPoint where
  time : Int
  value : Int
  color : String
deriving DecidableEq

/-- One point of the RSI series. -/
structure RsiPoint where
  time : Int
  value : Int
deriving DecidableEq

/-- Response of GET /api/chart/data (moving-average series omitted; they are
applied by the same unconditional setData pattern as the RSI series). -/
structure ChartData where
  errorStatus : Bool
  errMsg : String
  candles : List Candle
  rsi : List RsiPoint
  markers : Option (List MEvent)
deriving DecidableEq

/-- Displayed state of the chart page: the module-level globals plus the data
last pushed into each chart series. -/
structure ChartView where
  currentTf : String
  candles : List Candle
  volumeData : List VolPoint
  rsi : List RsiPoint
  markers : List Marker
  allTradeEvents : List MEvent
  currentPage : Nat
deriving DecidableEq

/-- Volume point derived from a candle. -/
def mkVolPoint (c : Candle) : VolPoint :=
  { time := c.time, value := c.volume
    color := if c.closePrice ≥ c.openPrice then "#26a69a" else "#ef5350" }

/-- Synchronous prefix of loadChartData, before the fetch suspension: the
module-level timeframe is overwritten immediately. -/
def loadStart (st : ChartView) (tf : String) : ChartView :=
  { st with currentTf := tf }

/-- Resumption of loadChartData once its fetch resolves.  The response is
applied unconditionally: there is no generation check against a newer
selection.  Candles and RSI are sorted and pushed wholesale; markers are
built in dataset order (no sort on this path), with ids written back onto
the response events; the trade table list is the events sorted descending.
Returns the new view and the response object as mutated by the id
write-back. -/
def loadApply (st : ChartView) (timeframe : String) (now : Int) (d : ChartData) :
    ChartView × ChartData :=
  if d.errorStatus then (st, d)
  else
    let st1 :=
      if d.candles ≠ [] then
        let sorted := sortByKeyFn Candle.time d.candles
        { st with candles := sorted, volumeData := sorted.map mkVolPoint }
      else st
    let st2 := if d.rsi ≠ [] then { st1 with rsi := sortByKeyFn RsiPoint.time d.rsi } else st1
    match d.markers with
    | some evs =>
      let patched := patchEvents "gen_" now 0 evs
      ({ st2 with markers := patched.map (mkMarkerLoad timeframe)
                  allTradeEvents := sortByKeyFn (fun e => -e.ts.epochSec) patched
                  currentPage := 1 },
       { d with markers := some patched })
    | none =>
      ({ st2 with markers := [], allTradeEvents := [], currentPage := 1 }, d)

/-- window.chartApi.setMarkers: empty input clears the marker layer and
returns; otherwise ids are written back onto the caller events, markers are
built and sorted ascending by effective time, and the trade table list is
rebuilt.  Returns the new view and the caller event array as mutated. -/
def chartApiSetMarkers (st : ChartView) (now : Int) (events : List MEvent) :
    ChartView × List MEvent :=
  if events = [] then ({ st with markers := [] }, events)
  else
    let patched := patchEvents "bt_" now 0 events
    ({ st with markers := sortByKeyFn (fun m => effMs m.time)
                 (patched.map (mkMarkerApi st.currentTf))
               allTradeEvents := sortByKeyFn (fun e => -e.ts.epochSec) patched
               currentPage := 1 },
     patched)

/-- timeInput.onchange for the row bound to the event with identity eventId:
the new input value parses to nd; a marker with that id gets the normalized
new time, the backing event objects get the new timestamp, and the list is
re-sorted ascending before being handed back to the chart; an unknown id
alerts and changes nothing.  Returns markers, events and the alert flag. -/
def editTime (tf : String) (markers : List Marker) (events : List MEvent)
    (eventId : Option String) (nd : JsDate) : List Marker × List MEvent × Bool :=
  match findIndexJs (fun m => eventId == some m.id) markers with
  | some i =>
    (sortByKeyFn (fun m => effSec m.time) (setTimeAt (markerTimeOfDate tf nd) i markers),
     updateFirstWhere (fun e => e.event_id == eventId) (fun e => { e with ts := nd }) events,
     false)
  | none => (markers, events, true)

theorem patchEvents_length (pre : String) (now : Int) :
    ∀ (k : Nat) (es : List MEvent), (patchEvents pre now k es).length = es.length := by
  intro k es
  induction es generalizing k with
  | nil => rfl
  | cons e es ih => simp [patchEvents, ih]

theorem patchEvents_get (pre : String) (now : Int) :
    ∀ (es : List MEvent) (k i : Nat) (h : i < es.length),
      (patchEvents pre now k es).get ⟨i, by rw [patchEvents_length]; exact h⟩
        = patchId pre now (k + i) (es.get ⟨i, h⟩) := by
  intro es
  induction es with
  | nil => intro k i h; exact absurd h (Nat.not_lt_zero i)
  | cons e es ih =>
    intro k i h
    cases i with
    | zero => simp [patchEvents]
    | succ j =>
      have hj : j < es.length := Nat.lt_of_succ_lt_succ h
      have := ih (k + 1) j hj
      simp only [patchEvents, List.get_cons_succ]
      rw [this]
      congr 1
      omega

theorem findIndexJs_eq_none {α : Type} (p : α → Bool) :
    ∀ l : List α, (∀ x ∈ l, p x = false) → findIndexJs p l = none := by
  intro l
  induction l with
  | nil => intro _; rfl
  | cons x xs ih =>
    intro h
    have hx := h x (by simp)
    have hxs := ih (fun y hy => h y (by simp [hy]))
    simp [findIndexJs, hx, hxs]

theorem append_ne_empty (s t : String) (hs : s.length ≠ 0) : s ++ t ≠ "" := by
  intro h
  have hl : (s ++ t).length = 0 := by rw [h]; rfl
  rw [String.length_append] at hl
  omega

theorem genId_ne_empty (pre : String) (now : Int) (i : Nat) (hp : pre.length ≠ 0) :
    genId pre now i ≠ "" := by
  have h1 : genId pre now i = pre ++ (toString now ++ "_" ++ toString i) := by
    simp [genId, String.append_assoc]
  rw [h1]
  exact append_ne_empty pre _ hp

/-!
Concrete fixtures used by counterexamples and witnesses.
-/

/-- A daily baseline record. -/
def barDaily : BarData :=
  { date := "20240101", time := none, close := 100, ma5 := some 5, ma20 := some 6
    volume := 100, vol_ma20 := some 7 }

/-- A BUY trade event matching the daily baseline row. -/
def tradeBuy : Trade :=
  { Trade.blank "20240101" with side := some "BUY", qty := some 10, price := some 1000 }

/-- An event carrying a present-but-zero indicator and no side. -/
def tradeZeroMa : Trade :=
  { Trade.blank "20240101" with ma_short := some 0 }

/-- An event carrying strategy values for the market columns. -/
def tradeStrategyVals : Trade :=
  { Trade.blank "20240101" with volume := some 999, ma_short := some 111 }

/-- An event whose timestamp matches no baseline row. -/
def tradeUnmatched : Trade := Trade.blank "20240202"

/-- The later of two marker events (epoch second 200). -/
def evLate : MEvent :=
  { event_id := some "e1", ts := { y := 2024, mo := 1, d := 2, epochSec := 200 }
    side := some "BUY", qty := 1, event_type := none }

/-- The earlier of two marker events (epoch second 100); listed second in the
dataset. -/
def evEarly : MEvent :=
  { event_id := some "e2", ts := { y := 2024, mo := 1, d := 1, epochSec := 100 }
    side := some "SELL", qty := 2, event_type := none }

/-- An event arriving with no identity. -/
def evNoId : MEvent :=
  { event_id := none, ts := { y := 2024, mo := 1, d := 3, epochSec := 300 }
    side := some "BUY", qty := 3, event_type := none }

/-- Initial chart view (no dataset loaded yet, default intraday timeframe). -/
def chartView0 : ChartView :=
  { currentTf := "1m", candles := [], volumeData := [], rsi := [], markers := []
    allTradeEvents := [], currentPage := 1 }

/-- A chart dataset whose markers arrive out of chronological order. -/
def chartDataUnsorted : ChartData :=
  { errorStatus := false, errMsg := "", candles := [], rsi := []
    markers := some [evLate, evEarly] }

/-- Candle returned for the abandoned selection. -/
def candA : Candle := { time := 1, openPrice := 10, closePrice := 11, volume := 100 }

/-- Candle returned for the newer selection. -/
def candB : Candle := { time := 1, openPrice := 20, closePrice := 19, volume := 200 }

/-- Response belonging to the abandoned selection. -/
def dataStale : ChartData :=
  { errorStatus := false, errMsg := "", candles := [candA], rsi := [], markers := none }

/-- Response belonging to the newer selection. -/
def dataFresh : ChartData :=
  { errorStatus := false, errMsg := "", candles := [candB], rsi := [], markers := none }

/-- A progress payload with distinctive metric values. -/
def progress55 : ProgressPayload :=
  { percent := 55, qty := 10, avg_price := 1000, buy_amt := 10000, eval_amt := 10100
    eval_pnl := 100, return_rate := 1, trade_count := 7 }

/-- A terminal result whose metrics differ from any progress payload above. -/
def resultFinal : BtResult :=
  { metrics := { total_return := 3, total_asset := 10300, mdd := 2, trade_count := 8 }
    detailed_logs := some [], history := none }

/-- Blank initial view of the modular backtest panel. -/
def btView0 : BT.View :=
  { progressWidth := "0%", progressText := "0%", qtyText := "", avgText := ""
    buyAmtText := "", evalAmtText := "", evalPnlText := "", pnlClass := ""
    rateText := "", rateClass := "", tradeCountText := "", statusText := ""
    btnDisabled := true, closed := false, lastBacktestResult := none
    table := BT.loadBaseline [barDaily] }

/-!
Claim theorems.
-/

/-- Claim C5: applying the same TradeEvent twice in succession to the table
leaves exactly the state (cell contents, style classes, highlight flags and
scroll target) produced by applying it once.  This holds for both revisions
of updateTableRow. -/
theorem C5_idempotent :
    (∀ (tbl : BT.Table) (t : Trade),
      BT.updateTableRow (BT.updateTableRow tbl t) t = BT.updateTableRow tbl t)
    ∧ (∀ (tbl : Legacy.Table) (t : Trade),
      Legacy.updateTableRow (Legacy.updateTableRow tbl t) t = Legacy.updateTableRow tbl t) :=
  ⟨BT.updateTableRow_idem, Legacy.updateTableRowLegacy_idem⟩

/-- Claim C6: a TradeEvent whose normalized timestamp matches no baseline row
leaves the whole table unchanged (silently dropped), in both revisions of
updateTableRow. -/
theorem C6_unmatched_drop :
    (∀ (tbl : BT.Table) (t : Trade),
      hasKey BT.Row.key (AntiStock.jsTrim t.timestamp) tbl.rows = false → BT.updateTableRow tbl t = tbl)
    ∧ (∀ (tbl : Legacy.Table) (t : Trade),
      hasKey Legacy.Row.key (AntiStock.jsFirstToken t.timestamp) tbl.rows = false →
        Legacy.updateTableRow tbl t = tbl) := by
  constructor
  · intro tbl t h
    simp [BT.updateTableRow, h]
  · intro tbl t h
    simp [Legacy.updateTableRow, h]

/-- Witness for C6 at a concrete table and unmatched event. -/
theorem C6_witness :
    (hasKey BT.Row.key (AntiStock.jsTrim tradeUnmatched.timestamp) (BT.loadBaseline [barDaily]).rows = false
      ∧ BT.updateTableRow (BT.loadBaseline [barDaily]) tradeUnmatched = BT.loadBaseline [barDaily])
    ∧ (hasKey Legacy.Row.key (AntiStock.jsFirstToken tradeUnmatched.timestamp)
          (Legacy.renderDataTable [barDaily]).rows = false
      ∧ Legacy.updateTableRow (Legacy.renderDataTable [barDaily]) tradeUnmatched
          = Legacy.renderDataTable [barDaily]) :=
  ⟨⟨by decide, C6_unmatched_drop.1 (BT.loadBaseline [barDaily]) tradeUnmatched (by decide)⟩,
   ⟨by decide, C6_unmatched_drop.2 (Legacy.renderDataTable [barDaily]) tradeUnmatched (by decide)⟩⟩

/-- Claim C7: a time edit naming a marker id that matches nothing in the
current list changes neither the marker list nor the backing event data, and
raises the user-visible alert. -/
theorem C7_edit_missing_id (tf : String) (markers : List Marker) (events : List MEvent)
    (eventId : Option String) (nd : JsDate)
    (h : ∀ m ∈ markers, (eventId == some m.id) = false) :
    editTime tf markers events eventId nd = (markers, events, true) := by
  have hfind : findIndexJs (fun m => eventId == some m.id) markers = none :=
    findIndexJs_eq_none _ markers h
  simp [editTime, hfind]

/-- Witness for C7 at a concrete marker list and unknown id. -/
theorem C7_witness :
    editTime "1m" [mkMarkerLoad "1m" evLate] [evLate] (some "ghost")
        { y := 2024, mo := 2, d := 1, epochSec := 999 }
      = ([mkMarkerLoad "1m" evLate], [evLate], true) :=
  C7_edit_missing_id "1m" [mkMarkerLoad "1m" evLate] [evLate] (some "ghost")
    { y := 2024, mo := 2, d := 1, epochSec := 999 } (by decide)

/-- Claim C9: both marker-building sites normalize the marker time per the
chart granularity: for the daily timeframe the time is the date-only value
built from the calendar components, otherwise the epoch-second instant. -/
theorem C9_time_normalization (tf : String) (e : MEvent) :
    ((mkMarkerLoad tf e).time = markerTime tf e ∧ (mkMarkerApi tf e).time = markerTime tf e)
    ∧ (tf = "D" → markerTime tf e = TimeVal.dateStr e.ts.y e.ts.mo e.ts.d)
    ∧ (tf ≠ "D" → markerTime tf e = TimeVal.instant e.ts.epochSec) := by
  refine ⟨⟨rfl, rfl⟩, fun h => ?_, fun h => ?_⟩ <;>
    simp [markerTime, markerTimeOfDate, h]

/-- Witness for C9 at a daily and an intraday timeframe. -/
theorem C9_witness :
    markerTime "D" evLate = TimeVal.dateStr 2024 1 2
    ∧ markerTime "1m" evLate = TimeVal.instant 200 :=
  ⟨(C9_time_normalization "D" evLate).2.1 rfl,
   (C9_time_normalization "1m" evLate).2.2 (by decide)⟩

/-- Claim C10: both marker-building entry points write a synthesized event_id
back onto the caller event object whenever the event arrives without a
truthy identity, so the input collection is mutated as a side effect. -/
theorem C10_input_mutation (now : Int) (es : List MEvent) (i : Nat) (h : i < es.length)
    (hfal : jsTruthyStr ((es.get ⟨i, h⟩).event_id) = false) :
    ((patchEvents "gen_" now 0 es).get
        ⟨i, by rw [patchEvents_length]; exact h⟩).event_id = some (genId "gen_" now i)
    ∧ ((patchEvents "bt_" now 0 es).get
        ⟨i, by rw [patchEvents_length]; exact h⟩).event_id = some (genId "bt_" now i)
    ∧ some (genId "gen_" now i) ≠ (es.get ⟨i, h⟩).event_id := by
  have hfal2 := hfal
  simp only [List.get_eq_getElem] at hfal2
  refine ⟨?_, ?_, ?_⟩
  · rw [patchEvents_get "gen_" now es 0 i h]
    simp [patchId, hfal2, Nat.zero_add]
  · rw [patchEvents_get "bt_" now es 0 i h]
    simp [patchId, hfal2, Nat.zero_add]
  · intro hcontra
    cases hv : (es.get ⟨i, h⟩).event_id with
    | none => rw [hv] at hcontra; exact Option.noConfusion hcontra
    | some s =>
      rw [hv] at hcontra
      have hs : genId "gen_" now i = s := Option.some.inj hcontra
      have hse : s = "" := by
        rw [hv] at hfal
        simpa [jsTruthyStr] using hfal
      exact genId_ne_empty "gen_" now i (by decide) (hs.trans hse)

/-- Witness for C10 at a concrete id-less event. -/
theorem C10_witness :
    ((patchEvents "gen_" 42 0 [evNoId]).get ⟨0, by decide⟩).event_id = some "gen_42_0"
    ∧ ((patchEvents "bt_" 42 0 [evNoId]).get ⟨0, by decide⟩).event_id = some "bt_42_0"
    ∧ some (genId "gen_" 42 0) ≠ ([evNoId].get ⟨0, by decide⟩).event_id :=
  ⟨(C10_input_mutation 42 [evNoId] 0 (by decide) (by decide)).1,
   (C10_input_mutation 42 [evNoId] 0 (by decide) (by decide)).2.1,
   (C10_input_mutation 42 [evNoId] 0 (by decide) (by decide)).2.2⟩

/-- Claim C1 fails on the modular onmessage handler: after a session of one
Progress message followed by the terminal Result, the displayed summary
return rate is the rendering of the Progress payload field (1.00%), while
the Result metric total_return is 3 (which would display as 3.00%) and is
never rendered; the displayed metrics are exactly the Progress payload
fields, contradicting the claim. -/
theorem C1_counterexample :
    (BT.processSession btView0 [BT.Msg.progress progress55, BT.Msg.result resultFinal]).rateText
      = "1.00%"
    ∧ BT.panelOf (BT.processSession btView0 [BT.Msg.progress progress55, BT.Msg.result resultFinal])
      = BT.renderPanel progress55
    ∧ resultFinal.metrics.total_return = 3
    ∧ toFixed2 resultFinal.metrics.total_return ++ "%" ≠ "1.00%" := by
  refine ⟨rfl, rfl, rfl, by decide⟩

/-- Claim C1, amended: terminal precedence holds for the monolithic app.js
handler, whose summary metrics elements are written only from Result.metrics
(Progress messages touch only the progress bar), for any Progress sequence;
in the modular revision the Result handler leaves the realtime summary panel
untouched, so after Progress messages followed by a Result the panel shows
exactly the rendering of the last Progress payload, not Result.metrics. -/
theorem C1_terminal_precedence_amended :
    (∀ (v : Legacy.View) (ps : List Int) (r : BtResult),
      Legacy.metricsOf
          (Legacy.processSession v (ps.map Legacy.Msg.progress ++ [Legacy.Msg.result r]))
        = Legacy.renderMetricsPanel r.metrics)
    ∧ (∀ (v : BT.View) (ps : List ProgressPayload) (p : ProgressPayload) (r : BtResult),
      BT.panelOf
          (BT.processSession v ((ps ++ [p]).map BT.Msg.progress ++ [BT.Msg.result r]))
        = BT.renderPanel p) := by
  constructor
  · intro v ps r
    simp only [Legacy.processSession, List.foldl_append, List.foldl_cons, List.foldl_nil]
    exact Legacy.metricsOf_result _ r
  · intro v ps p r
    have hsplit : (ps ++ [p]).map BT.Msg.progress ++ [BT.Msg.result r]
        = ps.map BT.Msg.progress ++ ([BT.Msg.progress p] ++ [BT.Msg.result r]) := by
      simp
    rw [BT.processSession, hsplit, List.foldl_append]
    simp only [List.foldl_append, List.foldl_cons, List.foldl_nil]
    rw [BT.panelOf_result, BT.panelOf_progress]

/-- Claim C2 fails: applying a TradeEvent that carries truthy strategy values
for the volume and short-moving-average columns overwrites those market
cells of the matching baseline row (the source comments call this updating
the initial market data with strategy data). -/
theorem C2_counterexample :
    (BT.updateTableRow (BT.loadBaseline [barDaily]) tradeStrategyVals).rows.map BT.Row.volCell
      = ["999"]
    ∧ (BT.loadBaseline [barDaily]).rows.map BT.Row.volCell = ["100"]
    ∧ (BT.updateTableRow (BT.loadBaseline [barDaily]) tradeStrategyVals).rows.map BT.Row.maShortCell
      = ["111"]
    ∧ (BT.loadBaseline [barDaily]).rows.map BT.Row.maShortCell = ["5"]
    ∧ (["999"] : List String) ≠ ["100"] := by
  refine ⟨rfl, rfl, rfl, rfl, by decide⟩

/-- Claim C2, amended: the row keys and the date and close cells are
unchanged by any TradeEvent; the volume and moving-average cells are
unchanged exactly when the event does not carry a truthy value for the
corresponding field, and are otherwise overwritten with the strategy value
carried by the event. -/
theorem C2_market_fields_amended (tbl : BT.Table) (t : Trade) :
    ((BT.updateTableRow tbl t).rows.map BT.Row.key = tbl.rows.map BT.Row.key)
    ∧ ((BT.updateTableRow tbl t).rows.map BT.Row.dateCell = tbl.rows.map BT.Row.dateCell)
    ∧ ((BT.updateTableRow tbl t).rows.map BT.Row.closeCell = tbl.rows.map BT.Row.closeCell)
    ∧ (jsTruthyNum t.ma_short = false →
        (BT.updateTableRow tbl t).rows.map BT.Row.maShortCell = tbl.rows.map BT.Row.maShortCell)
    ∧ (jsTruthyNum t.ma_long = false →
        (BT.updateTableRow tbl t).rows.map BT.Row.maLongCell = tbl.rows.map BT.Row.maLongCell)
    ∧ (jsTruthyNum t.volume = false →
        (BT.updateTableRow tbl t).rows.map BT.Row.volCell = tbl.rows.map BT.Row.volCell)
    ∧ (jsTruthyNum t.avg_vol = false →
        (BT.updateTableRow tbl t).rows.map BT.Row.avgVolCell = tbl.rows.map BT.Row.avgVolCell) := by
  by_cases h : hasKey BT.Row.key (jsTrim t.timestamp) tbl.rows
  · simp only [BT.updateTableRow, h, if_pos]
    refine ⟨?_, ?_, ?_, fun hm => ?_, fun hm => ?_, fun hm => ?_, fun hm => ?_⟩
    · exact updateFirstBy_map BT.Row.key (jsTrim t.timestamp) (BT.applyToRow t)
        BT.Row.key (fun r => rfl) tbl.rows
    · exact updateFirstBy_map BT.Row.key (jsTrim t.timestamp) (BT.applyToRow t)
        BT.Row.dateCell (fun r => rfl) tbl.rows
    · exact updateFirstBy_map BT.Row.key (jsTrim t.timestamp) (BT.applyToRow t)
        BT.Row.closeCell (fun r => rfl) tbl.rows
    · exact updateFirstBy_map _ _ _ _
        (fun r => by simp [BT.applyToRow, BT.mergeTruthyNumCell, hm]) tbl.rows
    · exact updateFirstBy_map _ _ _ _
        (fun r => by simp [BT.applyToRow, BT.mergeTruthyNumCell, hm]) tbl.rows
    · exact updateFirstBy_map _ _ _ _
        (fun r => by simp [BT.applyToRow, BT.mergeTruthyNumCell, hm]) tbl.rows
    · exact updateFirstBy_map _ _ _ _
        (fun r => by simp [BT.applyToRow, BT.mergeTruthyNumCell, hm]) tbl.rows
  · simp [BT.updateTableRow, h]

/-- Witness for C2 at a concrete table and an event without strategy values. -/
theorem C2_witness :
    jsTruthyNum tradeBuy.volume = false
    ∧ (BT.updateTableRow (BT.loadBaseline [barDaily]) tradeBuy).rows.map BT.Row.volCell
        = (BT.loadBaseline [barDaily]).rows.map BT.Row.volCell
    ∧ (BT.updateTableRow (BT.loadBaseline [barDaily]) tradeBuy).rows.map BT.Row.closeCell
        = (BT.loadBaseline [barDaily]).rows.map BT.Row.closeCell :=
  ⟨by decide,
   (C2_market_fields_amended (BT.loadBaseline [barDaily]) tradeBuy).2.2.2.2.2.1 (by decide),
   (C2_market_fields_amended (BT.loadBaseline [barDaily]) tradeBuy).2.2.1⟩

/-- Claim C3 fails on the loadChartData build: the markers handed to the
chart surface after a fetch are in dataset order, and a dataset whose
markers arrive late-first produces an unsorted hand-off (no sort exists on
that path, unlike the bulk replace and time-edit paths). -/
theorem C3_counterexample :
    ((loadApply chartView0 "1m" 0 chartDataUnsorted).1.markers.map Marker.time
      = [TimeVal.instant 200, TimeVal.instant 100])
    ∧ isSortedBy (fun m => effMs m.time)
        ((loadApply chartView0 "1m" 0 chartDataUnsorted).1.markers) = false := by
  refine ⟨rfl, by decide⟩

/-- Claim C3, amended: the bulk replace entry sorts the marker list ascending
by effective time before the hand-off, and so does the time-edit handler
whenever it finds the marker; the loadChartData build instead hands the
markers over in dataset order (it is sorted only when the fetched dataset
already was). -/
theorem C3_sorted_amended :
    (∀ (st : ChartView) (now : Int) (events : List MEvent),
      isSortedBy (fun m => effMs m.time) ((chartApiSetMarkers st now events).1.markers) = true)
    ∧ (∀ (tf : String) (markers : List Marker) (events : List MEvent)
        (eventId : Option String) (nd : JsDate) (i : Nat),
      findIndexJs (fun m => eventId == some m.id) markers = some i →
      isSortedBy (fun m => effSec m.time) ((editTime tf markers events eventId nd).1) = true)
    ∧ (∀ (st : ChartView) (tf : String) (now : Int) (d : ChartData) (evs : List MEvent),
      d.errorStatus = false → d.markers = some evs →
      (loadApply st tf now d).1.markers = (patchEvents "gen_" now 0 evs).map (mkMarkerLoad tf)) := by
  refine ⟨?_, ?_, ?_⟩
  · intro st now events
    by_cases h : events = []
    · simp [chartApiSetMarkers, h, isSortedBy]
    · simp [chartApiSetMarkers, h, isSortedBy_sortByKeyFn]
  · intro tf markers events eventId nd i hfind
    simp [editTime, hfind, isSortedBy_sortByKeyFn]
  · intro st tf now d evs herr hm
    simp [loadApply, herr, hm]

/-- Witness for C3 at concrete inputs for all three paths. -/
theorem C3_witness :
    isSortedBy (fun m => effMs m.time)
        ((chartApiSetMarkers chartView0 0 [evLate, evEarly]).1.markers) = true
    ∧ isSortedBy (fun m => effSec m.time)
        ((editTime "1m" [mkMarkerLoad "1m" evLate] [evLate] (some "e1")
          { y := 2024, mo := 2, d := 1, epochSec := 999 }).1) = true
    ∧ (loadApply chartView0 "1m" 0 chartDataUnsorted).1.markers
        = (patchEvents "gen_" 0 0 [evLate, evEarly]).map (mkMarkerLoad "1m") :=
  ⟨C3_sorted_amended.1 chartView0 0 [evLate, evEarly],
   C3_sorted_amended.2.1 "1m" [mkMarkerLoad "1m" evLate] [evLate] (some "e1")
     { y := 2024, mo := 2, d := 1, epochSec := 999 } 0 (by decide),
   C3_sorted_amended.2.2 chartView0 "1m" 0 chartDataUnsorted [evLate, evEarly] rfl rfl⟩

/-- State of the chart after the response for the newer selection applies. -/
def chartAfterFresh : ChartView :=
  (loadApply (loadStart (loadStart chartView0 "D") "1m") "1m" 0 dataFresh).1

/-- State of the chart after the stale response (for the abandoned selection)
resolves afterwards and is applied unconditionally. -/
def chartAfterStale : ChartView :=
  (loadApply chartAfterFresh "D" 0 dataStale).1

/-- Claim C4: the code has no generation token; a chart fetch belonging to an
abandoned selection that resolves after the switch is applied wholesale and
overwrites the newer selection state.  Concretely: the user requests the
daily chart (response dataStale in flight), switches to the 1m chart whose
response dataFresh applies first, then the stale daily response resolves;
the final view still claims the 1m selection but displays the stale candles. -/
theorem C4_stale_fetch_overwrites :
    chartAfterStale.currentTf = "1m"
    ∧ chartAfterFresh.candles = [candB]
    ∧ chartAfterStale.candles = [candA]
    ∧ chartAfterStale.candles ≠ chartAfterFresh.candles := by
  refine ⟨rfl, rfl, rfl, by decide⟩

/-- Claim C8 fails in two ways on the modular updateTableRow: a present,
non-null but zero ma_short is not merged (truthiness guard), and an absent
side still overwrites the side cell (it renders the undefined text over the
previous BUY label). -/
theorem C8_counterexample :
    tradeZeroMa.ma_short = some 0
    ∧ (BT.updateTableRow (BT.updateTableRow (BT.loadBaseline [barDaily]) tradeBuy) tradeZeroMa).rows.map
        BT.Row.maShortCell
      = (BT.updateTableRow (BT.loadBaseline [barDaily]) tradeBuy).rows.map BT.Row.maShortCell
    ∧ (BT.updateTableRow (BT.loadBaseline [barDaily]) tradeBuy).rows.map BT.Row.sideCellText
      = ["매수"]
    ∧ (BT.updateTableRow (BT.updateTableRow (BT.loadBaseline [barDaily]) tradeBuy) tradeZeroMa).rows.map
        BT.Row.sideCellText
      = ["undefined"]
    ∧ (["매수"] : List String) ≠ ["undefined"] := by
  refine ⟨rfl, rfl, rfl, rfl, by decide⟩

/-- Claim C8, amended: on a matching row, qty, price and pnl_pct merge
exactly when present and non-null; the indicator and decision fields merge
exactly when JS-truthy (present, non-null and non-zero, or non-empty for
strings), keeping the prior cell otherwise; and the side-derived cells are
rewritten unconditionally from the event side. -/
theorem C8_merge_amended (t : Trade) (r : BT.Row) :
    ((t.qty = none → (BT.applyToRow t r).qtyCell = r.qtyCell)
      ∧ (∀ q, t.qty = some q → (BT.applyToRow t r).qtyCell = formatComma q))
    ∧ ((t.price = none → (BT.applyToRow t r).priceCell = r.priceCell)
      ∧ (∀ p, t.price = some p → (BT.applyToRow t r).priceCell = formatComma (jsRound p)))
    ∧ ((t.pnl_pct = none → (BT.applyToRow t r).pnlCellHtml = r.pnlCellHtml)
      ∧ (∀ v, t.pnl_pct = some v → (BT.applyToRow t r).pnlCellHtml = BT.pnlSpan v))
    ∧ ((jsTruthyNum t.ma_short = false → (BT.applyToRow t r).maShortCell = r.maShortCell)
      ∧ (∀ v, t.ma_short = some v → v ≠ 0 →
          (BT.applyToRow t r).maShortCell = formatComma (jsRound v)))
    ∧ ((jsTruthyNum t.ma_long = false → (BT.applyToRow t r).maLongCell = r.maLongCell)
      ∧ (∀ v, t.ma_long = some v → v ≠ 0 →
          (BT.applyToRow t r).maLongCell = formatComma (jsRound v)))
    ∧ ((jsTruthyNum t.volume = false → (BT.applyToRow t r).volCell = r.volCell)
      ∧ (∀ v, t.volume = some v → v ≠ 0 → (BT.applyToRow t r).volCell = formatComma v))
    ∧ ((jsTruthyNum t.avg_vol = false → (BT.applyToRow t r).avgVolCell = r.avgVolCell)
      ∧ (∀ v, t.avg_vol = some v → v ≠ 0 →
          (BT.applyToRow t r).avgVolCell = formatComma (jsRound v)))
    ∧ ((jsTruthyNum t.adx = false → (BT.applyToRow t r).adxCell = r.adxCell)
      ∧ (∀ v, t.adx = some v → v ≠ 0 → (BT.applyToRow t r).adxCell = toString (jsRound v)))
    ∧ ((jsTruthyNum t.slope = false → (BT.applyToRow t r).slopeCell = r.slopeCell)
      ∧ (∀ v, t.slope = some v → v ≠ 0 → (BT.applyToRow t r).slopeCell = toFixed1 v))
    ∧ ((jsTruthyNum t.rr_ratio = false → (BT.applyToRow t r).rrCellHtml = r.rrCellHtml)
      ∧ (∀ v, t.rr_ratio = some v → v ≠ 0 → (BT.applyToRow t r).rrCellHtml = BT.rrSpan v))
    ∧ ((jsTruthyNum t.perf_weight = false → (BT.applyToRow t r).weightCell = r.weightCell)
      ∧ (∀ v, t.perf_weight = some v → v ≠ 0 → (BT.applyToRow t r).weightCell = toFixed2 v))
    ∧ ((jsTruthyStr t.action = false → (BT.applyToRow t r).actionCell = r.actionCell)
      ∧ (∀ a, t.action = some a → a ≠ "" → (BT.applyToRow t r).actionCell = a))
    ∧ ((jsTruthyStr t.msg = false → (BT.applyToRow t r).logCell = r.logCell)
      ∧ (∀ s, t.msg = some s → s ≠ "" → (BT.applyToRow t r).logCell = s))
    ∧ ((BT.applyToRow t r).sideCellText = BT.sideTextOf t.side
      ∧ (BT.applyToRow t r).sideCellClass = BT.sideClassOf t.side) := by
  refine ⟨⟨fun h => ?_, fun q h => ?_⟩, ⟨fun h => ?_, fun p h => ?_⟩,
    ⟨fun h => ?_, fun v h => ?_⟩, ⟨fun h => ?_, fun v h h0 => ?_⟩,
    ⟨fun h => ?_, fun v h h0 => ?_⟩, ⟨fun h => ?_, fun v h h0 => ?_⟩,
    ⟨fun h => ?_, fun v h h0 => ?_⟩, ⟨fun h => ?_, fun v h h0 => ?_⟩,
    ⟨fun h => ?_, fun v h h0 => ?_⟩, ⟨fun h => ?_, fun v h h0 => ?_⟩,
    ⟨fun h => ?_, fun v h h0 => ?_⟩, ⟨fun h => ?_, fun a h h0 => ?_⟩,
    ⟨fun h => ?_, fun s h h0 => ?_⟩, ⟨rfl, rfl⟩⟩
  · simp [BT.applyToRow, BT.mergeNumCell, h]
  · simp [BT.applyToRow, BT.mergeNumCell, h]
  · simp [BT.applyToRow, BT.mergeNumCell, h]
  · simp [BT.applyToRow, BT.mergeNumCell, h]
  · simp [BT.applyToRow, BT.mergeNumCell, h]
  · simp [BT.applyToRow, BT.mergeNumCell, h]
  · simp only [BT.applyToRow]; exact BT.mergeTruthyNumCell_of_false _ _ _ h
  · simp only [BT.applyToRow, h]; exact BT.mergeTruthyNumCell_of_some _ _ _ h0
  · simp only [BT.applyToRow]; exact BT.mergeTruthyNumCell_of_false _ _ _ h
  · simp only [BT.applyToRow, h]; exact BT.mergeTruthyNumCell_of_some _ _ _ h0
  · simp only [BT.applyToRow]; exact BT.mergeTruthyNumCell_of_false _ _ _ h
  · simp only [BT.applyToRow, h]; exact BT.mergeTruthyNumCell_of_some _ _ _ h0
  · simp only [BT.applyToRow]; exact BT.mergeTruthyNumCell_of_false _ _ _ h
  · simp only [BT.applyToRow, h]; exact BT.mergeTruthyNumCell_of_some _ _ _ h0
  · simp only [BT.applyToRow]; exact BT.mergeTruthyNumCell_of_false _ _ _ h
  · simp only [BT.applyToRow, h]; exact BT.mergeTruthyNumCell_of_some _ _ _ h0
  · simp only [BT.applyToRow]; exact BT.mergeTruthyNumCell_of_false _ _ _ h
  · simp only [BT.applyToRow, h]; exact BT.mergeTruthyNumCell_of_some _ _ _ h0
  · simp only [BT.applyToRow]; exact BT.mergeTruthyNumCell_of_false _ _ _ h
  · simp only [BT.applyToRow, h]; exact BT.mergeTruthyNumCell_of_some _ _ _ h0
  · simp only [BT.applyToRow]; exact BT.mergeTruthyNumCell_of_false _ _ _ h
  · simp only [BT.applyToRow, h]; exact BT.mergeTruthyNumCell_of_some _ _ _ h0
  · simp only [BT.applyToRow]; exact BT.mergeTruthyStrCell_of_false _ _ _ h
  · simp only [BT.applyToRow, h]; exact BT.mergeTruthyStrCell_of_some _ _ _ h0
  · simp only [BT.applyToRow]; exact BT.mergeTruthyStrCell_of_false _ _ _ h
  · simp only [BT.applyToRow, h]; exact BT.mergeTruthyStrCell_of_some _ _ _ h0

/-- Witness for C8 at the concrete BUY event and a concrete row. -/
theorem C8_witness :
    (BT.applyToRow tradeBuy (BT.mkRow barDaily)).qtyCell = formatComma 10
    ∧ (BT.applyToRow tradeBuy (BT.mkRow barDaily)).volCell = (BT.mkRow barDaily).volCell
    ∧ (BT.applyToRow tradeBuy (BT.mkRow barDaily)).sideCellText = BT.sideTextOf tradeBuy.side :=
  ⟨(C8_merge_amended tradeBuy (BT.mkRow barDaily)).1.2 10 rfl,
   (C8_merge_amended tradeBuy (BT.mkRow barDaily)).2.2.2.2.2.1.1 (by decide),
   (C8_merge_amended tradeBuy (BT.mkRow barDaily)).2.2.2.2.2.2.2.2.2.2.2.2.2.1⟩

end AntiStock
